import Mathlib

/-!
Verification development for the voice-agent call bridge.

This file gives a shallow embedding of the per-call pending-operation
store and tool dispatcher (`app/utils/function_tools.py`), the static
department table (`app/agent_config.py`), and the model-event loop of the
session bridge (`app/main.py`, `handle_openai_events`), together with
theorems about their behaviour.

Modelling conventions:
- a Python dict record with optional keys becomes a structure whose
  fields default to the value Python's `.get` would produce for a
  missing key (False for flags, `none` for strings);
- the global `call_states` dict becomes a functional map
  `String -> Option CallState`; a dict holds at most one value per key,
  which the functional map enforces by construction;
- Python truthiness on an optional string (`if not department`) is the
  explicit test `optStrTruthy`: `none` and the empty string are falsy;
- the HTTP side effects of `telnyx_cmd` become an explicit trace of
  `TelnyxAction` values, and the outcome of each successive HTTP call
  (success response, failure response, or raised exception) is supplied
  by an environment `env : Nat -> CmdResult` consumed in call order.
-/

namespace Bridge

/-- Per-call state record stored in the global `call_states` dict.
Fields default to what Python `.get` returns for an absent key. -/
structure CallState where
  pending_hangup : Bool := false
  pending_transfer : Bool := false
  department : Option String := none
  destination : Option String := none
  headers : List (String × String) := []
  reason : Option String := none
  executed : Bool := false
deriving DecidableEq, Repr

/-- The `call_states` dict: a map from call control id to its record. -/
abbrev CallStates := String → Option CallState

/-- Empty store (the module-level `call_states = {}` initialisation). -/
def CallStates.empty : CallStates := fun _ => none

/-- Dict assignment `call_states[k] = v`. -/
def CallStates.update (st : CallStates) (k : String) (v : CallState) : CallStates :=
  fun q => if q = k then some v else st q

/-- Dict deletion `del call_states[k]`. -/
def CallStates.erase (st : CallStates) (k : String) : CallStates :=
  fun q => if q = k then none else st q

/-- Arguments passed to a function tool, as parsed from the model's JSON.
Absent keys are `none`, matching Python `.get`. -/
structure FuncArgs where
  department : Option String := none
  reason : Option String := none
deriving DecidableEq, Repr

/-- Configuration of one department entry of the `DEPARTMENTS` table. -/
structure DeptConfig where
  sip_uri : Option String := none
  headers : List (String × String) := []
deriving DecidableEq, Repr

/-- The department table (a Python dict from name to configuration). -/
abbrev Departments := List (String × DeptConfig)

/-- Dict lookup in the department table. -/
def lookupDept (d : String) : Departments → Option DeptConfig
  | [] => none
  | (k, v) :: rest => if k = d then some v else lookupDept d rest

/-- Python truthiness of an optional string: None and the empty string
are falsy. -/
def optStrTruthy : Option String → Bool
  | none => false
  | some s => !s.isEmpty

/-- Rendering of an optional string inside an f-string: Python prints
None as the text None. -/
def pyStr : Option String → String
  | none => "None"
  | some s => s

/-- The `DEPARTMENTS` table of `agent_config.py`, parameterised by the
process environment (`os.getenv`); each getenv has the default shown in
the source. -/
def DEPARTMENTS (env : String → Option String) : Departments :=
  [ ("sales",
      { sip_uri := some ((env "SALES_SIP_URI").getD "sip:hamidstenantsip@sip.telnyx.com"),
        headers := [("P-Called-Party-ID",
          (env "SALES_P_Called_Party_ID_HEADER").getD "sip:400@hamids-pbx.ca.unificx.com")] }),
    ("support",
      { sip_uri := some ((env "SUPPORT_SIP_URI").getD "sip:hamidstenantsip@sip.telnyx.com"),
        headers := [("P-Called-Party-ID",
          (env "SUPPORT_P_Called_Party_ID_HEADER").getD "sip:400@hamids-pbx.ca.unificx.com")] }),
    ("billing",
      { sip_uri := some ((env "BILLING_SIP_URI").getD "sip:hamidstenantsip@sip.telnyx.com"),
        headers := [("P-Called-Party-ID",
          (env "BILLING_P_Called_Party_ID_HEADER").getD "sip:400@hamids-pbx.ca.unificx.com")] }) ]

/-- Goodbye line returned by `handle_end_call`, keyed on the reason. -/
def goodbyeMessage (reason : String) : String :=
  if reason = "caller_request" then
    "Thank you for calling! Have a wonderful day!"
  else if reason = "escalation_needed" then
    "I\x27ll connect you with someone who can better assist you. Thank you for your patience!"
  else
    "Thank you so much for calling! Have a great day!"

/-- The joined department list used in the unknown-department message:
the configured keys, or a hardcoded fallback when the table is empty. -/
def departmentList (depts : Departments) : String :=
  if depts.isEmpty then "sales, support, billing, technical, management"
  else String.intercalate ", " (depts.map Prod.fst)

/-- Message returned when the requested department is falsy or absent. -/
def missingDeptMessage (department avail : String) : String :=
  "I\x27m sorry, I couldn\x27t find the " ++ department ++
    " department. Available departments are: " ++ avail ++
    ". Let me connect you with our main support team instead."

/-- Message returned when the department entry has no usable SIP URI. -/
def configIssueMessage (department : String) : String :=
  "I\x27m sorry, there\x27s a configuration issue with the " ++ department ++
    " department. Let me connect you with our main support team instead."

/-- Confirmation line returned once a transfer has been recorded. -/
def transferConfirmMessage (department : String) : String :=
  "Perfect! I\x27m transferring your call to our " ++ department ++
    " department now. Please hold on for just a moment while I connect you."

/-- Embedding of `handle_end_call`: records a pending hangup for the
call (a whole-record overwrite, as in the source) and returns the
reason-dependent goodbye line. The unused Telnyx API key parameter of
the source is omitted. -/
def handle_end_call (args : FuncArgs) (cid : String) (st : CallStates) :
    String × CallStates :=
  let reason := args.reason.getD "conversation_complete"
  (goodbyeMessage reason,
   st.update cid { pending_hangup := true, reason := some reason })

/-- Embedding of `handle_transfer_call`: validates the department
against the table, then records a pending transfer (a whole-record
overwrite). The guard `if not department or department not in
departments` is the first branch; `if not destination` is the second. -/
def handle_transfer_call (args : FuncArgs) (cid : String) (depts : Departments)
    (st : CallStates) : String × CallStates :=
  let department := args.department
  let reason := args.reason.getD "Customer requested transfer"
  if !optStrTruthy department || (lookupDept (department.getD "") depts).isNone then
    (missingDeptMessage (pyStr department) (departmentList depts), st)
  else
    let cfg := (lookupDept (department.getD "") depts).getD {}
    let destination := cfg.sip_uri
    if !optStrTruthy destination then
      (configIssueMessage (department.getD ""), st)
    else
      (transferConfirmMessage (department.getD ""),
       st.update cid
         { pending_transfer := true,
           department := department,
           destination := destination,
           headers := cfg.headers,
           reason := some reason })

/-- Embedding of `handle_function_call`: dispatch on the tool name with
the pending-operation guards of the source. `existing` is
`call_states.get(call_control_id, \x7b\x7d)`. -/
def handle_function_call (funcName : String) (args : FuncArgs) (cid : String)
    (depts : Departments) (st : CallStates) : String × CallStates :=
  let existing := (st cid).getD {}
  if funcName = "end_call" then
    if existing.pending_transfer then
      ("Transfer is already in progress.", st)
    else if existing.pending_hangup then
      ("Call is already ending.", st)
    else
      handle_end_call args cid st
  else if funcName = "transfer_call" then
    if existing.pending_hangup then
      ("Call is already ending.", st)
    else if existing.pending_transfer && (existing.department == args.department) then
      ("Transfer is already in progress.", st)
    else
      handle_transfer_call args cid depts st
  else
    ("I\x27m sorry, I couldn\x27t process that request.", st)

/-- Embedding of `has_pending_operation`. -/
def has_pending_operation (cid : String) (st : CallStates) : Bool :=
  match st cid with
  | none => false
  | some s => s.pending_hangup || s.pending_transfer

/-- Outcome of one `telnyx_cmd` HTTP call: a success response, a
failure (non-2xx) response, or a raised exception. -/
inductive CmdResult
  | success
  | failure
  | exn
deriving DecidableEq, Repr

/-- JSON body of the transfer call-control action as built by
`execute_pending_operation`; `toDest` stands for the payload key named
to, which is reserved in Lean. -/
structure TransferPayload where
  toDest : Option String
  timeout_secs : Nat
  time_limit_secs : Nat
  sip_headers : Option (List (String × String)) := none
deriving DecidableEq, Repr

/-- One invocation of `telnyx_cmd`: target call, action name, and the
optional JSON body (only the transfer action carries one here). -/
structure TelnyxAction where
  call_control_id : String
  action : String
  body : Option TransferPayload := none
deriving DecidableEq, Repr

/-- Transfer payload built from the stored record: fixed 30-second
timeout, 3600-second time limit, and the SIP headers included only when
the stored header list is non-empty (Python list truthiness). -/
def transferPayloadOf (s : CallState) : TransferPayload :=
  { toDest := s.destination,
    timeout_secs := 30,
    time_limit_secs := 3600,
    sip_headers := if s.headers.isEmpty then none else some s.headers }

/-- The sequence of `telnyx_cmd` invocations issued by the body of
`execute_pending_operation` for a record `s`, given the outcome of each
successive HTTP call.  Transfer is prioritised over hangup; a failure
response to the transfer triggers a fallback hangup; an exception
anywhere in the try block triggers the best-effort hangup of the except
block, whose own failure is swallowed. -/
def exec_actions (cid : String) (s : CallState) (env : Nat → CmdResult) :
    List TelnyxAction :=
  if s.pending_transfer then
    let t : TelnyxAction :=
      { call_control_id := cid, action := "transfer", body := some (transferPayloadOf s) }
    let h : TelnyxAction := { call_control_id := cid, action := "hangup" }
    match env 0 with
    | .success => [t]
    | .failure =>
      match env 1 with
      | .exn => [t, h, h]
      | _ => [t, h]
    | .exn => [t, h]
  else if s.pending_hangup then
    let h : TelnyxAction := { call_control_id := cid, action := "hangup" }
    match env 0 with
    | .exn => [h, h]
    | _ => [h]
  else []

/-- Embedding of `execute_pending_operation`: returns the trace of
`telnyx_cmd` invocations and the resulting store.  The guards mirror
the source: nothing happens when no record exists or when the record is
already marked executed; otherwise the `finally` block deletes the
record whatever the outcome, so the resulting store is the original
with the entry erased (the in-place `executed = True` mutation is only
visible in the intermediate store, modelled by `exec_marked`). -/
def execute_pending_operation (cid : String) (env : Nat → CmdResult)
    (st : CallStates) : List TelnyxAction × CallStates :=
  match st cid with
  | none => ([], st)
  | some s =>
    if s.executed then ([], st)
    else (exec_actions cid s env, st.erase cid)

/-- The store as visible while `execute_pending_operation` is suspended
at one of its awaits: the record has been marked executed in place
(`state["executed"] = True`) but not yet deleted. -/
def exec_marked (cid : String) (st : CallStates) : CallStates :=
  match st cid with
  | none => st
  | some s =>
    if s.executed then st
    else st.update cid { s with executed := true }

/-- Outbound frame sent on the Telnyx media WebSocket by the event
loop of `handle_openai_events` in `main.py`. -/
inductive TelFrame
  | media (stream_id : String) (payload : String)
  | mark (stream_id : String) (name : String)
  | clear (stream_id : String)
deriving DecidableEq, Repr

/-- Message sent back on the OpenAI socket by the event loop. -/
inductive OAOut
  | functionOutput (call_id : String) (output : String)
  | responseCreate
deriving DecidableEq, Repr

/-- Observable effect performed by one step of the event loop. -/
inductive Effect
  | sendTelnyx (f : TelFrame)
  | sendOpenAI (m : OAOut)
  | sleep (secs : Nat)
  | telnyx (a : TelnyxAction)
deriving DecidableEq, Repr

/-- Inbound OpenAI realtime event, classified by its type tag as in
`handle_openai_events`.  Function-call arguments arrive already parsed
(the JSON decoding of the argument string is outside this model).
Unrecognised tags and non-JSON messages both fall into the silent
default of the dispatch chain. -/
inductive OAEvent
  | transcriptCompleted (transcript : String)
  | audioDelta (delta : String)
  | audioDone
  | speechStarted
  | speechStopped
  | responseCreated
  | funcArgsDone (func_call_id : String) (name : String) (args : FuncArgs)
  | responseDone
  | errorEvent
  | unknownEvent
deriving DecidableEq, Repr

/-- One iteration of the `handle_openai_events` dispatch chain:
returns the effects performed, the updated store, and whether the loop
breaks.  `cid` and `sid` are the captured `call_control_id` and
`stream_id`; the `audioDone` branch tests `call_control_id` truthiness
as the source does. -/
def handleOAEvent (cid sid : String) (depts : Departments)
    (env : Nat → CmdResult) (e : OAEvent) (st : CallStates) :
    List Effect × CallStates × Bool :=
  match e with
  | .transcriptCompleted _ => ([], st, false)
  | .audioDelta d =>
    if d.isEmpty then ([], st, false)
    else ([.sendTelnyx (.media sid d)], st, false)
  | .audioDone =>
    let markFx := Effect.sendTelnyx (.mark sid "audio_end")
    if !cid.isEmpty && has_pending_operation cid st then
      let r := execute_pending_operation cid env st
      (markFx :: Effect.sleep 2 :: r.1.map Effect.telnyx, r.2, true)
    else
      ([markFx], st, false)
  | .speechStarted => ([.sendTelnyx (.clear sid)], st, false)
  | .speechStopped => ([], st, false)
  | .responseCreated => ([], st, false)
  | .funcArgsDone fcid name args =>
    let r := handle_function_call name args cid depts st
    ([.sendOpenAI (.functionOutput fcid r.1), .sendOpenAI .responseCreate], r.2, false)
  | .responseDone => ([], st, false)
  | .errorEvent => ([], st, false)
  | .unknownEvent => ([], st, false)

/-- The outbound event loop over a finite sequence of received model
events: processes events in order, accumulating effects, and stops
early when a step breaks (after executing a pending operation). -/
def handle_openai_events (cid sid : String) (depts : Departments)
    (env : Nat → CmdResult) : List OAEvent → CallStates → List Effect × CallStates
  | [], st => ([], st)
  | e :: rest, st =>
    let r := handleOAEvent cid sid depts env e st
    if r.2.2 then (r.1, r.2.1)
    else
      let r2 := handle_openai_events cid sid depts env rest r.2.1
      (r.1 ++ r2.1, r2.2)

/-- Media frames among a list of effects, in order. -/
def mediaFrames : List Effect → List TelFrame
  | [] => []
  | .sendTelnyx (.media s p) :: rest => .media s p :: mediaFrames rest
  | _ :: rest => mediaFrames rest

/-- Non-empty audio-delta payloads among a list of events, in order
(the loop skips empty deltas by truthiness). -/
def deltaPayloads : List OAEvent → List String
  | [] => []
  | .audioDelta d :: rest =>
    if d.isEmpty then deltaPayloads rest else d :: deltaPayloads rest
  | _ :: rest => deltaPayloads rest

/-- Store invariant: no record ever carries both a pending hangup and
a pending transfer. -/
def GoodStore (st : CallStates) : Prop :=
  ∀ cid s, st cid = some s →
    ¬(s.pending_hangup = true ∧ s.pending_transfer = true)

/-- Stores reachable from the initial empty `call_states` dict by any
sequence of tool dispatches and pending-operation executions. -/
inductive Reachable : CallStates → Prop
  | init : Reachable CallStates.empty
  | fcall (n : String) (a : FuncArgs) (cid : String) (depts : Departments)
      (st : CallStates) : Reachable st →
      Reachable (handle_function_call n a cid depts st).2
  | exec (cid : String) (env : Nat → CmdResult) (st : CallStates) :
      Reachable st →
      Reachable (execute_pending_operation cid env st).2

/-- Abbreviation: one `transfer_call` dispatch with explicit department
and reason arguments. -/
def transferStep (d r cid : String) (depts : Departments) (st : CallStates) :
    String × CallStates :=
  handle_function_call "transfer_call" { department := some d, reason := some r }
    cid depts st

/-- The department table with every environment variable unset (all
getenv defaults in force). -/
def defaultDepts : Departments := DEPARTMENTS (fun _ => none)

/-- Store after `transfer_call(sales)` then `transfer_call(support)`
on a fresh call, against the default department table. -/
def twoTransfersStore : CallStates :=
  (transferStep "support" "r2" "c" defaultDepts
    (transferStep "sales" "r1" "c" defaultDepts CallStates.empty).2).2

/-- Result of a third `transfer_call(sales)` after the two transfers
above. -/
def thirdTransfer : String × CallStates :=
  transferStep "sales" "r3" "c" defaultDepts twoTransfersStore

/-- Lookup of a key just written. -/
theorem CallStates.update_self (st : CallStates) (k : String) (v : CallState) :
    st.update k v k = some v := by
  simp [CallStates.update]

/-- Lookup of a key just deleted. -/
theorem CallStates.erase_self (st : CallStates) (k : String) :
    st.erase k k = none := by
  simp [CallStates.erase]

/-- A store with no pending operation for a call has both pending
flags clear on the record `handle_function_call` reads. -/
theorem no_pending_flags (cid : String) (st : CallStates)
    (h : has_pending_operation cid st = false) :
    ((st cid).getD {}).pending_hangup = false ∧
    ((st cid).getD {}).pending_transfer = false := by
  cases hc : st cid with
  | none => simp [hc]
  | some s =>
    simp only [has_pending_operation, hc, Bool.or_eq_false_iff] at h
    simp [hc, h.1, h.2]

/-- C2: `execute_pending_operation` is a no-op when no record exists
for the call or when the record is already marked executed; the
executed flag is set in place before any side-effecting call-control
action, so a re-entrant invocation observing the intermediate store
(`exec_marked`) is a no-op; once execution completes the record is
deleted whatever the outcome of the HTTP calls, and a second
invocation performs no side-effecting action. -/
theorem C2_execute_idempotent (cid : String) (env env2 : Nat → CmdResult)
    (st : CallStates) (s : CallState)
    (h : st cid = some s) (hex : s.executed = false) :
    (∀ st2 : CallStates, st2 cid = none →
        execute_pending_operation cid env st2 = ([], st2)) ∧
    (∀ (st2 : CallStates) (s2 : CallState), st2 cid = some s2 →
        s2.executed = true →
        execute_pending_operation cid env st2 = ([], st2)) ∧
    execute_pending_operation cid env2 (exec_marked cid st) =
        ([], exec_marked cid st) ∧
    (execute_pending_operation cid env st).2 = st.erase cid ∧
    execute_pending_operation cid env2 ((execute_pending_operation cid env st).2) =
        ([], st.erase cid) := by
  refine ⟨?_, ?_, ?_, ?_, ?_⟩
  · intro st2 h2
    simp [execute_pending_operation, h2]
  · intro st2 s2 h2 hx
    simp [execute_pending_operation, h2, hx]
  · have hm : exec_marked cid st = st.update cid { s with executed := true } := by
      simp [exec_marked, h, hex]
    rw [hm]
    simp [execute_pending_operation, CallStates.update_self]
  · simp [execute_pending_operation, h, hex]
  · simp [execute_pending_operation, h, hex, CallStates.erase_self]

/-- Witness for C2 at a concrete hangup-pending store with a
success-responding environment. -/
theorem C2_execute_idempotent_witness :
    (CallStates.empty.update "c" { pending_hangup := true }) "c" =
        some { pending_hangup := true } ∧
    (({ pending_hangup := true } : CallState)).executed = false ∧
    execute_pending_operation "c" (fun _ => CmdResult.success)
        ((execute_pending_operation "c" (fun _ => CmdResult.success)
            (CallStates.empty.update "c" { pending_hangup := true })).2) =
      ([], (CallStates.empty.update "c" { pending_hangup := true }).erase "c") :=
  ⟨rfl, rfl,
    (C2_execute_idempotent "c" (fun _ => CmdResult.success)
      (fun _ => CmdResult.success)
      (CallStates.empty.update "c" { pending_hangup := true })
      { pending_hangup := true } rfl rfl).2.2.2.2⟩

/-- C4: executing a pending transfer issues a transfer call-control
action whose payload carries the stored destination, the 30-second
timeout, the 3600-second time limit, and the stored SIP headers
exactly when they are non-empty; a failure response to the transfer
triggers a fallback hangup for the same call id, and an exception
during execution triggers a best-effort fallback hangup as well. -/
theorem C4_transfer_execution (cid : String) (env : Nat → CmdResult)
    (st : CallStates) (s : CallState)
    (h : st cid = some s) (hex : s.executed = false)
    (htr : s.pending_transfer = true) :
    (transferPayloadOf s).toDest = s.destination ∧
    (transferPayloadOf s).timeout_secs = 30 ∧
    (transferPayloadOf s).time_limit_secs = 3600 ∧
    (s.headers = [] → (transferPayloadOf s).sip_headers = none) ∧
    (s.headers ≠ [] → (transferPayloadOf s).sip_headers = some s.headers) ∧
    (execute_pending_operation cid env st).1.head? =
      some { call_control_id := cid, action := "transfer",
             body := some (transferPayloadOf s) } ∧
    (env 0 = CmdResult.success →
      (execute_pending_operation cid env st).1 =
        [{ call_control_id := cid, action := "transfer",
           body := some (transferPayloadOf s) }]) ∧
    (env 0 = CmdResult.failure → env 1 ≠ CmdResult.exn →
      (execute_pending_operation cid env st).1 =
        [{ call_control_id := cid, action := "transfer",
           body := some (transferPayloadOf s) },
         { call_control_id := cid, action := "hangup" }]) ∧
    (env 0 = CmdResult.failure → env 1 = CmdResult.exn →
      (execute_pending_operation cid env st).1 =
        [{ call_control_id := cid, action := "transfer",
           body := some (transferPayloadOf s) },
         { call_control_id := cid, action := "hangup" },
         { call_control_id := cid, action := "hangup" }]) ∧
    (env 0 = CmdResult.exn →
      (execute_pending_operation cid env st).1 =
        [{ call_control_id := cid, action := "transfer",
           body := some (transferPayloadOf s) },
         { call_control_id := cid, action := "hangup" }]) := by
  have htrace : (execute_pending_operation cid env st).1 = exec_actions cid s env := by
    simp [execute_pending_operation, h, hex]
  refine ⟨rfl, rfl, rfl, ?_, ?_, ?_, ?_, ?_, ?_, ?_⟩
  · intro hh; simp [transferPayloadOf, hh]
  · intro hh; simp [transferPayloadOf, hh]
  · rw [htrace]
    simp only [exec_actions, htr, if_true]
    cases h0 : env 0 <;> simp
    cases h1 : env 1 <;> simp
  · intro h0
    rw [htrace]
    simp [exec_actions, htr, h0]
  · intro h0 h1
    rw [htrace]
    cases hv : env 1 <;> simp_all [exec_actions]
  · intro h0 h1
    rw [htrace]
    simp [exec_actions, htr, h0, h1]
  · intro h0
    rw [htrace]
    simp [exec_actions, htr, h0]

/-- Witness for C4 at a concrete transfer-pending store whose transfer
attempt gets a failure response. -/
theorem C4_transfer_execution_witness :
    (CallStates.empty.update "c"
        { pending_transfer := true, destination := some "sip:dest" }) "c" =
      some { pending_transfer := true, destination := some "sip:dest" } ∧
    (execute_pending_operation "c" (fun _ => CmdResult.failure)
        (CallStates.empty.update "c"
          { pending_transfer := true, destination := some "sip:dest" })).1 =
      [{ call_control_id := "c", action := "transfer",
         body := some (transferPayloadOf
           { pending_transfer := true, destination := some "sip:dest" }) },
       { call_control_id := "c", action := "hangup" }] :=
  ⟨rfl,
    (C4_transfer_execution "c" (fun _ => CmdResult.failure)
      (CallStates.empty.update "c"
        { pending_transfer := true, destination := some "sip:dest" })
      { pending_transfer := true, destination := some "sip:dest" }
      rfl rfl rfl).2.2.2.2.2.2.2.1 rfl (by decide)⟩

/-- C5: `end_call` is rejected with an explanatory string and leaves
the store unchanged when a transfer is pending, or when a hangup is
already pending (the duplicate gets the already-ending response);
only when neither is pending does it record a hangup operation and
return the reason-dependent goodbye line. -/
theorem C5_end_call_guards (cid : String) (a : FuncArgs) (depts : Departments)
    (st : CallStates) :
    (((st cid).getD {}).pending_transfer = true →
      handle_function_call "end_call" a cid depts st =
        ("Transfer is already in progress.", st)) ∧
    (((st cid).getD {}).pending_transfer = false →
     ((st cid).getD {}).pending_hangup = true →
      handle_function_call "end_call" a cid depts st =
        ("Call is already ending.", st)) ∧
    (((st cid).getD {}).pending_transfer = false →
     ((st cid).getD {}).pending_hangup = false →
      handle_function_call "end_call" a cid depts st =
        (goodbyeMessage (a.reason.getD "conversation_complete"),
         st.update cid
           { pending_hangup := true,
             reason := some (a.reason.getD "conversation_complete") })) := by
  refine ⟨?_, ?_, ?_⟩
  · intro ht
    simp [handle_function_call, ht]
  · intro ht hh
    simp [handle_function_call, ht, hh]
  · intro ht hh
    simp [handle_function_call, handle_end_call, ht, hh]

/-- Witness for C5: a second `end_call` on a hangup-pending store is
rejected with the already-ending response and the store is unchanged. -/
theorem C5_end_call_guards_witness :
    ((((CallStates.empty.update "c" { pending_hangup := true }) "c").getD {}).pending_transfer
        = false) ∧
    handle_function_call "end_call" { reason := some "caller_request" } "c" []
        (CallStates.empty.update "c" { pending_hangup := true }) =
      ("Call is already ending.", CallStates.empty.update "c" { pending_hangup := true }) :=
  ⟨rfl,
    (C5_end_call_guards "c" { reason := some "caller_request" } []
      (CallStates.empty.update "c" { pending_hangup := true })).2.1 rfl rfl⟩

/-- C6: `transfer_call` is rejected and the store left unchanged when
a hangup is pending; when a transfer to the same department is
pending, it returns the already-in-progress message without mutating
the store. -/
theorem C6_transfer_guards (cid : String) (a : FuncArgs) (depts : Departments)
    (st : CallStates) :
    (((st cid).getD {}).pending_hangup = true →
      handle_function_call "transfer_call" a cid depts st =
        ("Call is already ending.", st)) ∧
    (((st cid).getD {}).pending_hangup = false →
     ((st cid).getD {}).pending_transfer = true →
     ((st cid).getD {}).department = a.department →
      handle_function_call "transfer_call" a cid depts st =
        ("Transfer is already in progress.", st)) := by
  refine ⟨?_, ?_⟩
  · intro hh
    simp [handle_function_call, hh]
  · intro hh ht hd
    simp [handle_function_call, hh, ht, hd]

/-- Witness for C6: a duplicate transfer to the pending department is
answered without mutation. -/
theorem C6_transfer_guards_witness :
    ((((CallStates.empty.update "c"
          { pending_transfer := true, department := some "sales" }) "c").getD {}).department
        = (({ department := some "sales" } : FuncArgs)).department) ∧
    handle_function_call "transfer_call" { department := some "sales" } "c" []
        (CallStates.empty.update "c"
          { pending_transfer := true, department := some "sales" }) =
      ("Transfer is already in progress.",
       CallStates.empty.update "c"
         { pending_transfer := true, department := some "sales" }) :=
  ⟨rfl,
    (C6_transfer_guards "c" { department := some "sales" } []
      (CallStates.empty.update "c"
        { pending_transfer := true, department := some "sales" })).2 rfl rfl rfl⟩

/-- Keys of the configured department table are the three non-empty
names sales, support, billing, whatever the environment holds. -/
theorem DEPARTMENTS_key_not_empty (env : String → Option String) (d : String)
    (cfg : DeptConfig) (h : lookupDept d (DEPARTMENTS env) = some cfg) :
    d.isEmpty = false := by
  by_cases h1 : "sales" = d
  · subst h1; decide
  by_cases h2 : "support" = d
  · subst h2; decide
  by_cases h3 : "billing" = d
  · subst h3; decide
  simp [DEPARTMENTS, lookupDept, h1, h2, h3] at h

/-- When no operation is pending, `handle_function_call` with
`transfer_call` reduces to `handle_transfer_call`. -/
theorem hfc_transfer_dispatch (a : FuncArgs) (cid : String) (depts : Departments)
    (st : CallStates)
    (hh : ((st cid).getD {}).pending_hangup = false)
    (hdup : (((st cid).getD {}).pending_transfer &&
             (((st cid).getD {}).department == a.department)) = false) :
    handle_function_call "transfer_call" a cid depts st =
      handle_transfer_call a cid depts st := by
  simp [handle_function_call, hh, hdup]

/-- A `transfer_call` whose department is configured with a non-empty
SIP URI records the transfer and returns the confirmation line. -/
theorem handle_transfer_call_found (a : FuncArgs) (cid d dest : String)
    (depts : Departments) (st : CallStates) (cfg : DeptConfig)
    (hd : a.department = some d) (hde : d.isEmpty = false)
    (hlk : lookupDept d depts = some cfg) (hcfg : cfg.sip_uri = some dest)
    (hdest : dest.isEmpty = false) :
    handle_transfer_call a cid depts st =
      (transferConfirmMessage d,
       st.update cid
         { pending_transfer := true, department := some d,
           destination := some dest, headers := cfg.headers,
           reason := some (a.reason.getD "Customer requested transfer") }) := by
  simp [handle_transfer_call, hd, hde, hlk, hcfg, hdest, optStrTruthy]

/-- C7: with no operation pending, `transfer_call` for a department
absent from the configured table returns the fallback message listing
the configured department names (sales, support, billing) and leaves
the store unchanged. -/
theorem C7_unknown_department (env : String → Option String) (cid d : String)
    (a : FuncArgs) (st : CallStates)
    (hargs : a.department = some d)
    (habs : lookupDept d (DEPARTMENTS env) = none)
    (hnp : has_pending_operation cid st = false) :
    handle_function_call "transfer_call" a cid (DEPARTMENTS env) st =
      (missingDeptMessage d (departmentList (DEPARTMENTS env)), st) ∧
    departmentList (DEPARTMENTS env) = "sales, support, billing" := by
  obtain ⟨hh, ht⟩ := no_pending_flags cid st hnp
  refine ⟨?_, rfl⟩
  rw [hfc_transfer_dispatch a cid (DEPARTMENTS env) st hh (by simp [ht])]
  by_cases hde : d.isEmpty
  · simp [handle_transfer_call, hargs, hde, optStrTruthy, pyStr]
  · simp [handle_transfer_call, hargs, hde, habs, optStrTruthy, pyStr]

/-- Witness for C7 at an unconfigured department name on a fresh call. -/
theorem C7_unknown_department_witness :
    lookupDept "frontdesk" (DEPARTMENTS (fun _ => none)) = none ∧
    handle_function_call "transfer_call" { department := some "frontdesk" } "c"
        (DEPARTMENTS (fun _ => none)) CallStates.empty =
      (missingDeptMessage "frontdesk"
        (departmentList (DEPARTMENTS (fun _ => none))), CallStates.empty) :=
  ⟨rfl,
    (C7_unknown_department (fun _ => none) "c" "frontdesk"
      { department := some "frontdesk" } CallStates.empty rfl rfl rfl).1⟩

/-- C10: with no operation pending, `transfer_call` for a department
present in the configured table whose entry carries no usable SIP URI
returns the configuration-issue message naming that department and
leaves the store unchanged. -/
theorem C10_missing_sip_uri (env : String → Option String) (cid d : String)
    (cfg : DeptConfig) (a : FuncArgs) (st : CallStates)
    (hargs : a.department = some d)
    (hlk : lookupDept d (DEPARTMENTS env) = some cfg)
    (hsip : optStrTruthy cfg.sip_uri = false)
    (hnp : has_pending_operation cid st = false) :
    handle_function_call "transfer_call" a cid (DEPARTMENTS env) st =
      (configIssueMessage d, st) := by
  obtain ⟨hh, ht⟩ := no_pending_flags cid st hnp
  have hde : d.isEmpty = false := DEPARTMENTS_key_not_empty env d cfg hlk
  rw [hfc_transfer_dispatch a cid (DEPARTMENTS env) st hh (by simp [ht])]
  have h1 : optStrTruthy (some d) = true := by simp [optStrTruthy, hde]
  simp [handle_transfer_call, hargs, hlk, h1, hsip]

/-- Witness for C10: an environment that sets the sales SIP URI to the
empty string makes the sales entry unusable. -/
theorem C10_missing_sip_uri_witness :
    lookupDept "sales" (DEPARTMENTS (fun _ => some "")) =
      some { sip_uri := some "", headers := [("P-Called-Party-ID", "")] } ∧
    handle_function_call "transfer_call" { department := some "sales" } "c"
        (DEPARTMENTS (fun _ => some "")) CallStates.empty =
      (configIssueMessage "sales", CallStates.empty) :=
  ⟨rfl,
    C10_missing_sip_uri (fun _ => some "") "c" "sales"
      { sip_uri := some "", headers := [("P-Called-Party-ID", "")] }
      { department := some "sales" } CallStates.empty rfl rfl rfl rfl⟩

/-- C1 counterexample: after `transfer_call(sales)` then
`transfer_call(support)` on a fresh call, a third
`transfer_call(sales)` is not rejected: it returns the transfer
confirmation line and moves the pending record back to sales, so the
record does not stay on support. -/
theorem C1_counterexample :
    (twoTransfersStore "c").map CallState.department = some (some "support") ∧
    thirdTransfer.1 = transferConfirmMessage "sales" ∧
    thirdTransfer.1 ≠ "Transfer is already in progress." ∧
    (thirdTransfer.2 "c").map CallState.department = some (some "sales") ∧
    (thirdTransfer.2 "c").map CallState.department ≠ some (some "support") := by
  refine ⟨by decide, by decide, by decide, by decide, by decide⟩

/-- C1 amended: on a fresh call, `transfer_call(A)` then
`transfer_call(B)` with distinct configured departments A and B
updates the pending record to B; a third `transfer_call(A)` after
that again overwrites the record, moving it back to department A and
returning the transfer confirmation line (the newer intent wins). -/
theorem C1_transfer_override (cid A B rA rB rC dA dB : String)
    (hdrA hdrB : List (String × String)) (depts : Departments) (st : CallStates)
    (h0 : st cid = none)
    (hAl : lookupDept A depts = some { sip_uri := some dA, headers := hdrA })
    (hBl : lookupDept B depts = some { sip_uri := some dB, headers := hdrB })
    (hAB : A ≠ B) (hAe : A.isEmpty = false) (hBe : B.isEmpty = false)
    (hdAe : dA.isEmpty = false) (hdBe : dB.isEmpty = false) :
    ((transferStep A rA cid depts st).2 cid =
      some { pending_transfer := true, department := some A,
             destination := some dA, headers := hdrA, reason := some rA }) ∧
    ((transferStep B rB cid depts (transferStep A rA cid depts st).2).2 cid =
      some { pending_transfer := true, department := some B,
             destination := some dB, headers := hdrB, reason := some rB }) ∧
    (transferStep A rC cid depts
        (transferStep B rB cid depts (transferStep A rA cid depts st).2).2 =
      (transferConfirmMessage A,
       ((transferStep B rB cid depts (transferStep A rA cid depts st).2).2).update cid
         { pending_transfer := true, department := some A,
           destination := some dA, headers := hdrA, reason := some rC })) := by
  have hBA : B ≠ A := fun hx => hAB hx.symm
  have e1 : transferStep A rA cid depts st =
      (transferConfirmMessage A,
       st.update cid
         { pending_transfer := true, department := some A,
           destination := some dA, headers := hdrA, reason := some rA }) := by
    rw [transferStep,
      hfc_transfer_dispatch _ cid depts st (by simp [h0]) (by simp [h0]),
      handle_transfer_call_found _ cid A dA depts st _ rfl hAe hAl rfl hdAe]
    rfl
  have e2 : transferStep B rB cid depts (transferStep A rA cid depts st).2 =
      (transferConfirmMessage B,
       ((transferStep A rA cid depts st).2).update cid
         { pending_transfer := true, department := some B,
           destination := some dB, headers := hdrB, reason := some rB }) := by
    rw [transferStep,
      hfc_transfer_dispatch _ cid depts _
        (by rw [e1]; simp [CallStates.update_self])
        (by rw [e1]; simp [CallStates.update_self, hAB]),
      handle_transfer_call_found _ cid B dB depts _ _ rfl hBe hBl rfl hdBe]
    rfl
  have e3 : transferStep A rC cid depts
        (transferStep B rB cid depts (transferStep A rA cid depts st).2).2 =
      (transferConfirmMessage A,
       ((transferStep B rB cid depts (transferStep A rA cid depts st).2).2).update cid
         { pending_transfer := true, department := some A,
           destination := some dA, headers := hdrA, reason := some rC }) := by
    rw [transferStep,
      hfc_transfer_dispatch _ cid depts _
        (by rw [e2]; simp [CallStates.update_self])
        (by rw [e2]; simp [CallStates.update_self, hBA]),
      handle_transfer_call_found _ cid A dA depts _ _ rfl hAe hAl rfl hdAe]
    rfl
  refine ⟨?_, ?_, e3⟩
  · rw [e1]; simp [CallStates.update_self]
  · rw [e2]; simp [CallStates.update_self]

/-- Witness for the amended C1 at sales and support against the
default department table. -/
theorem C1_transfer_override_witness :
    CallStates.empty "c" = none ∧
    lookupDept "sales" defaultDepts =
      some { sip_uri := some "sip:hamidstenantsip@sip.telnyx.com",
             headers := [("P-Called-Party-ID",
               "sip:400@hamids-pbx.ca.unificx.com")] } ∧
    (transferStep "sales" "r1" "c" defaultDepts CallStates.empty).2 "c" =
      some { pending_transfer := true, department := some "sales",
             destination := some "sip:hamidstenantsip@sip.telnyx.com",
             headers := [("P-Called-Party-ID",
               "sip:400@hamids-pbx.ca.unificx.com")],
             reason := some "r1" } :=
  ⟨rfl, rfl,
    (C1_transfer_override "c" "sales" "support" "r1" "r2" "r3"
      "sip:hamidstenantsip@sip.telnyx.com" "sip:hamidstenantsip@sip.telnyx.com"
      [("P-Called-Party-ID", "sip:400@hamids-pbx.ca.unificx.com")]
      [("P-Called-Party-ID", "sip:400@hamids-pbx.ca.unificx.com")]
      defaultDepts CallStates.empty rfl rfl rfl (by decide) rfl rfl rfl rfl).1⟩

/-- The empty store satisfies the invariant. -/
theorem GoodStore_empty : GoodStore CallStates.empty := by
  intro cid s h
  simp [CallStates.empty] at h

/-- Updating with a record that does not carry both flags preserves
the invariant. -/
theorem GoodStore_update (st : CallStates) (k : String) (v : CallState)
    (h : GoodStore st)
    (hv : ¬(v.pending_hangup = true ∧ v.pending_transfer = true)) :
    GoodStore (st.update k v) := by
  intro cid s hs
  by_cases hk : cid = k
  · subst hk
    rw [CallStates.update_self] at hs
    cases hs
    exact hv
  · rw [CallStates.update] at hs
    simp only [if_neg hk] at hs
    exact h cid s hs

/-- Deleting a record preserves the invariant. -/
theorem GoodStore_erase (st : CallStates) (k : String) (h : GoodStore st) :
    GoodStore (st.erase k) := by
  intro cid s hs
  rw [CallStates.erase] at hs
  by_cases hk : cid = k
  · simp [hk] at hs
  · simp only [if_neg hk] at hs
    exact h cid s hs

/-- `handle_end_call` writes a hangup-only record. -/
theorem GoodStore_end_call (a : FuncArgs) (cid : String) (st : CallStates)
    (h : GoodStore st) : GoodStore (handle_end_call a cid st).2 := by
  simp only [handle_end_call]
  exact GoodStore_update st cid _ h (by simp)

/-- `handle_transfer_call` either leaves the store unchanged or writes
a transfer-only record. -/
theorem GoodStore_transfer_call (a : FuncArgs) (cid : String)
    (depts : Departments) (st : CallStates) (h : GoodStore st) :
    GoodStore (handle_transfer_call a cid depts st).2 := by
  simp only [handle_transfer_call]
  split
  · exact h
  · split
    · exact h
    · exact GoodStore_update st cid _ h (by simp)

/-- Every tool dispatch preserves the invariant. -/
theorem GoodStore_fcall (n : String) (a : FuncArgs) (cid : String)
    (depts : Departments) (st : CallStates) (h : GoodStore st) :
    GoodStore (handle_function_call n a cid depts st).2 := by
  simp only [handle_function_call]
  split
  · split
    · exact h
    · split
      · exact h
      · exact GoodStore_end_call a cid st h
  · split
    · split
      · exact h
      · split
        · exact h
        · exact GoodStore_transfer_call a cid depts st h
    · exact h

/-- Execution preserves the invariant. -/
theorem GoodStore_exec (cid : String) (env : Nat → CmdResult)
    (st : CallStates) (h : GoodStore st) :
    GoodStore (execute_pending_operation cid env st).2 := by
  simp only [execute_pending_operation]
  split
  · exact h
  · split
    · exact h
    · exact GoodStore_erase st cid h

/-- C3: every store reachable by tool dispatches and executions holds
at most one record per call id (the store is a map), and no record
ever carries both a pending hangup and a pending transfer; moreover,
on any store a transfer request never supersedes a pending hangup and
a hangup request is rejected outright while a transfer is pending,
both leaving the store unchanged. -/
theorem C3_store_invariant (st : CallStates) (h : Reachable st) :
    (∀ cid s, st cid = some s →
        ¬(s.pending_hangup = true ∧ s.pending_transfer = true)) ∧
    (∀ (st2 : CallStates) (cid : String) (s : CallState) (a : FuncArgs)
        (depts : Departments), st2 cid = some s → s.pending_hangup = true →
        handle_function_call "transfer_call" a cid depts st2 =
          ("Call is already ending.", st2)) ∧
    (∀ (st2 : CallStates) (cid : String) (s : CallState) (a : FuncArgs)
        (depts : Departments), st2 cid = some s → s.pending_transfer = true →
        handle_function_call "end_call" a cid depts st2 =
          ("Transfer is already in progress.", st2)) := by
  refine ⟨?_, ?_, ?_⟩
  · have hg : GoodStore st := by
      induction h with
      | init => exact GoodStore_empty
      | fcall n a cid depts st2 _ ih => exact GoodStore_fcall n a cid depts st2 ih
      | exec cid env st2 _ ih => exact GoodStore_exec cid env st2 ih
    exact hg
  · intro st2 cid s a depts hs hh
    simp [handle_function_call, hs, hh]
  · intro st2 cid s a depts hs ht
    simp [handle_function_call, hs, ht]

/-- Witness for C3 at the store reached by one `end_call` dispatch. -/
theorem C3_store_invariant_witness :
    ((handle_function_call "end_call" { reason := some "caller_request" } "c" []
        CallStates.empty).2 "c" =
      some { pending_hangup := true, reason := some "caller_request" }) ∧
    ¬(({ pending_hangup := true, reason := some "caller_request" } : CallState).pending_hangup
        = true ∧
      ({ pending_hangup := true, reason := some "caller_request" } : CallState).pending_transfer
        = true) :=
  ⟨rfl,
    (C3_store_invariant _
      (Reachable.fcall "end_call" { reason := some "caller_request" } "c" []
        CallStates.empty Reachable.init)).1 "c"
      { pending_hangup := true, reason := some "caller_request" } rfl⟩

/-- C9: on an audio-turn-complete event the loop first sends the mark
frame; when an operation is pending for the call it then sleeps the
2-second grace period, performs the execution trace, and the loop
terminates with the remaining events unprocessed; when nothing is
pending, only the mark frame is sent and the loop continues on the
untouched store. -/
theorem C9_audio_done (cid sid : String) (depts : Departments)
    (env : Nat → CmdResult) (st : CallStates) (rest : List OAEvent)
    (hc : cid.isEmpty = false) :
    (has_pending_operation cid st = true →
      handle_openai_events cid sid depts env (OAEvent.audioDone :: rest) st =
        (Effect.sendTelnyx (TelFrame.mark sid "audio_end") :: Effect.sleep 2 ::
           (execute_pending_operation cid env st).1.map Effect.telnyx,
         (execute_pending_operation cid env st).2)) ∧
    (has_pending_operation cid st = false →
      handle_openai_events cid sid depts env (OAEvent.audioDone :: rest) st =
        (Effect.sendTelnyx (TelFrame.mark sid "audio_end") ::
           (handle_openai_events cid sid depts env rest st).1,
         (handle_openai_events cid sid depts env rest st).2)) := by
  constructor
  · intro hp
    simp [handle_openai_events, handleOAEvent, hc, hp]
  · intro hp
    simp [handle_openai_events, handleOAEvent, hc, hp]

/-- Witness for C9 at a hangup-pending store: the loop emits the mark,
sleeps, hangs up, and stops. -/
theorem C9_audio_done_witness :
    has_pending_operation "c" (CallStates.empty.update "c" { pending_hangup := true })
        = true ∧
    handle_openai_events "c" "s" [] (fun _ => CmdResult.success)
        (OAEvent.audioDone :: [OAEvent.audioDelta "p"])
        (CallStates.empty.update "c" { pending_hangup := true }) =
      (Effect.sendTelnyx (TelFrame.mark "s" "audio_end") :: Effect.sleep 2 ::
         (execute_pending_operation "c" (fun _ => CmdResult.success)
           (CallStates.empty.update "c" { pending_hangup := true })).1.map Effect.telnyx,
       (execute_pending_operation "c" (fun _ => CmdResult.success)
         (CallStates.empty.update "c" { pending_hangup := true })).2) :=
  ⟨rfl,
    (C9_audio_done "c" "s" [] (fun _ => CmdResult.success)
      (CallStates.empty.update "c" { pending_hangup := true })
      [OAEvent.audioDelta "p"] rfl).1 rfl⟩

/-- Media frames distribute over effect concatenation. -/
theorem mediaFrames_append (a b : List Effect) :
    mediaFrames (a ++ b) = mediaFrames a ++ mediaFrames b := by
  induction a with
  | nil => rfl
  | cons e rest ih =>
    cases e with
    | sendTelnyx f => cases f <;> simp [mediaFrames, ih]
    | sendOpenAI m => simp [mediaFrames, ih]
    | sleep n => simp [mediaFrames, ih]
    | telnyx a2 => simp [mediaFrames, ih]

/-- Call-control actions contribute no media frames. -/
theorem mediaFrames_map_telnyx (l : List TelnyxAction) :
    mediaFrames (l.map Effect.telnyx) = [] := by
  induction l with
  | nil => rfl
  | cons a rest ih => simp [mediaFrames, ih]

/-- C8: over any sequence of received model events, the media frames
relayed to the telephony link are exactly the non-empty audio-delta
payloads of the processed prefix, in arrival order, each wrapped with
the session stream id. -/
theorem C8_audio_relay_order (cid sid : String) (depts : Departments)
    (env : Nat → CmdResult) (events : List OAEvent) (st : CallStates) :
    ∃ n, mediaFrames (handle_openai_events cid sid depts env events st).1 =
      (deltaPayloads (List.take n events)).map (fun p => TelFrame.media sid p) := by
  induction events generalizing st with
  | nil => exact ⟨0, rfl⟩
  | cons e rest ih =>
    cases e with
    | transcriptCompleted t =>
      obtain ⟨n, hn⟩ := ih st
      exact ⟨n + 1, by
        simp [handle_openai_events, handleOAEvent, deltaPayloads, hn]⟩
    | audioDelta d =>
      by_cases hd : d.isEmpty
      · obtain ⟨n, hn⟩ := ih st
        exact ⟨n + 1, by
          simp [handle_openai_events, handleOAEvent, hd, deltaPayloads, hn]⟩
      · obtain ⟨n, hn⟩ := ih st
        exact ⟨n + 1, by
          simp [handle_openai_events, handleOAEvent, hd, deltaPayloads,
            mediaFrames, mediaFrames_append, hn]⟩
    | audioDone =>
      by_cases hb : (!cid.isEmpty && has_pending_operation cid st) = true
      · exact ⟨0, by
          simp [handle_openai_events, handleOAEvent, hb, mediaFrames,
            mediaFrames_map_telnyx, deltaPayloads]⟩
      · obtain ⟨n, hn⟩ := ih st
        exact ⟨n + 1, by
          simp [handle_openai_events, handleOAEvent, hb, deltaPayloads,
            mediaFrames, hn]⟩
    | speechStarted =>
      obtain ⟨n, hn⟩ := ih st
      exact ⟨n + 1, by
        simp [handle_openai_events, handleOAEvent, deltaPayloads, mediaFrames, hn]⟩
    | speechStopped =>
      obtain ⟨n, hn⟩ := ih st
      exact ⟨n + 1, by
        simp [handle_openai_events, handleOAEvent, deltaPayloads, hn]⟩
    | responseCreated =>
      obtain ⟨n, hn⟩ := ih st
      exact ⟨n + 1, by
        simp [handle_openai_events, handleOAEvent, deltaPayloads, hn]⟩
    | funcArgsDone fcid name args =>
      obtain ⟨n, hn⟩ := ih (handle_function_call name args cid depts st).2
      exact ⟨n + 1, by
        simp [handle_openai_events, handleOAEvent, deltaPayloads, mediaFrames, hn]⟩
    | responseDone =>
      obtain ⟨n, hn⟩ := ih st
      exact ⟨n + 1, by
        simp [handle_openai_events, handleOAEvent, deltaPayloads, hn]⟩
    | errorEvent =>
      obtain ⟨n, hn⟩ := ih st
      exact ⟨n + 1, by
        simp [handle_openai_events, handleOAEvent, deltaPayloads, hn]⟩
    | unknownEvent =>
      obtain ⟨n, hn⟩ := ih st
      exact ⟨n + 1, by
        simp [handle_openai_events, handleOAEvent, deltaPayloads, hn]⟩

end Bridge
